import Mathlib

/-!
Shallow embedding of the `extend-inplace` repository.

The repository holds two copies of the attribute-injection engine:
the packaged one, `src/extend_inplace/main.py` (embedded below in
namespace `Main`), and a legacy root-level copy, `extend_inplace.py`
(embedded in namespace `Legacy`).  Both copies share the same helper
functions `_flatten_iterable` / `_fmt_validate_target_args` verbatim,
so those are embedded once at top level.

Python objects that can appear in a target specification are modelled
by `PyObj`; attribute values flowing through the injector by `PyVal`;
classes are identified by `Nat` ids, with their static shape (module
name, class name, method-resolution order, metaclass flags) in an
environment `Env`, and their mutable own-attribute tables together
with the module-global `_history` set in a `State`.  Exceptions are
modelled by `Except` / an `err?` field carrying a `PyError`; the
state at raise time is returned alongside, since a Python exception
leaves all mutations made so far in place.
-/

/-- A Python object as far as target-specification flattening is
concerned: types (by id), ints, strings, bytes, lists and tuples. -/
inductive PyObj where
  | typeObj (id : Nat)
  | intObj (n : Int)
  | strObj (s : String)
  | bytesObj (bs : List Nat)
  | listObj (elems : List PyObj)
  | tupleObj (elems : List PyObj)

/-- `isinstance(e, Iterable) and not isinstance(e, (str, bytes))`:
the `valid_iterable` helper inside `_flatten_iterable`. -/
def valid_iterable : PyObj → Bool
  | .listObj _ => true
  | .tupleObj _ => true
  | _ => false

/-- `isinstance(e, Iterable)` alone (strings and bytes are iterable in
Python); used by the metaclass front end when normalising `to`. -/
def isIterablePy : PyObj → Bool
  | .listObj _ => true
  | .tupleObj _ => true
  | .strObj _ => true
  | .bytesObj _ => true
  | _ => false

/-- The elements of an iterable `PyObj` (empty for non-iterables). -/
def pyChildren : PyObj → List PyObj
  | .listObj es => es
  | .tupleObj es => es
  | _ => []

/-- `isinstance(x, type)`. -/
def isType : PyObj → Bool
  | .typeObj _ => true
  | _ => false

/-- The id of a type object, when the object is one. -/
def typeIdOf : PyObj → Option Nat
  | .typeObj i => some i
  | _ => none

/-- The inner generator `flatten(elems)` of `_flatten_iterable`:
for each element, recursively descend when it is a valid iterable,
otherwise yield it. -/
def flatten : List PyObj → List PyObj
  | [] => []
  | .listObj es :: rest => flatten es ++ flatten rest
  | .tupleObj es :: rest => flatten es ++ flatten rest
  | e :: rest => e :: flatten rest

/-- `_flatten_iterable(args)`: wrap a non-iterable argument in a
1-tuple, then flatten. -/
def _flatten_iterable (args : PyObj) : List PyObj :=
  if valid_iterable args then flatten (pyChildren args) else flatten [args]

/-- An attribute value: a plain function (with its `__name__` and its
`len(inspect.getfullargspec(f).args)`), a property (with its getter
function's name and parameter count), a classmethod or staticmethod
wrapper, an int, or some other object carrying its type string. -/
inductive PyVal where
  | func (name : String) (nparams : Nat)
  | prop (fgetName : String) (fgetParams : Nat)
  | clsMethod (name : String)
  | statMethod (name : String)
  | intVal (n : Int)
  | otherVal (typeName : String)
  deriving Repr, DecidableEq

/-- `inspect.isfunction(v)`. -/
def PyVal.isFunc : PyVal → Bool
  | .func _ _ => true
  | _ => false

/-- `isinstance(v, property)`. -/
def PyVal.isProp : PyVal → Bool
  | .prop _ _ => true
  | _ => false

/-- The rendering of `type(v)` used inside error messages. -/
def PyVal.typeName : PyVal → String
  | .func _ _ => "<class \x27function\x27>"
  | .prop _ _ => "<class \x27property\x27>"
  | .clsMethod _ => "<class \x27classmethod\x27>"
  | .statMethod _ => "<class \x27staticmethod\x27>"
  | .intVal _ => "<class \x27int\x27>"
  | .otherVal t => t

/-- The exception kinds the engine raises. -/
inductive PyError where
  | existingAttribute (msg : String)
  | typeError (msg : String)
  | valueError (msg : String)
  deriving Repr, DecidableEq

/-- `_fmt_validate_target_args(args)`: flatten, then require every
flattened element to be a type; returns the ids of the target types. -/
def _fmt_validate_target_args (args : PyObj) : Except PyError (List Nat) :=
  let fl := _flatten_iterable args
  if fl.all isType then .ok (fl.filterMap typeIdOf)
  else .error (.typeError "Targets must be of type, \x27type\x27")

/-- Static shape of a class: its `inspect.getmodule(..).__name__`
(none when `getmodule` returns None), its `__name__` (none when
absent), its attribute-lookup order (the class itself first, then its
ancestors, as `hasattr` would search them), and whether it is an
instance of each engine's metaclass. -/
structure ClassInfo where
  module? : Option String
  name? : Option String
  mro : List Nat
  metaIsExtendMeta : Bool
  metaIsInjectMeta : Bool
  deriving Repr, DecidableEq

/-- The static class environment: every class id's shape. -/
abbrev Env : Type := Nat → ClassInfo

/-- `(module name or None, class name or None, attribute name)`:
the `_make_history_key` tuple shape. -/
abbrev HistoryKey : Type := Option String × Option String × String

/-- Mutable state of one engine module: the global `_history` set of
history keys, and the own-attribute tables of every class, as a list
of `((class id, attribute name), value)` entries where the most
recent entry for a key shadows older ones (`setattr` prepends). -/
structure State where
  history : List HistoryKey
  attrs : List ((Nat × String) × PyVal)
  deriving Repr, DecidableEq

/-- Set-like insertion into `_history` (`set.add`). -/
def addKey (k : HistoryKey) (h : List HistoryKey) : List HistoryKey :=
  if k ∈ h then h else k :: h

/-- Whether `n` is in class `c`'s own `__dict__`. -/
def hasOwn (st : State) (c : Nat) (n : String) : Bool :=
  st.attrs.any (fun p => p.1 = (c, n))

/-- `hasattr(c, n)`: the name is found on the class itself or on any
class of its lookup order. -/
def hasattrB (env : Env) (st : State) (c : Nat) (n : String) : Bool :=
  ((env c).mro).any (fun b => hasOwn st b n)

/-- `_make_history_key(target_cls, attr_name)`. -/
def _make_history_key (env : Env) (c : Nat) (n : String) : HistoryKey :=
  ((env c).module?, (env c).name?, n)

/-- The dotted rendering of a history key with `<Unknown>` standing
for None, as built inside the `ExistingAttributeError` message. -/
def keyToStr (k : HistoryKey) : String :=
  String.intercalate "." [k.1.getD "<Unknown>", k.2.1.getD "<Unknown>", k.2.2]

/-- The `ExistingAttributeError` message text. -/
def existingAttrMsg (k : HistoryKey) : String :=
  keyToStr k ++ " already exists. Pass `overwrite = True` to avoid this error."

/-- An event in the trace of one injection: a `_history.add(key)`
call, or a `setattr(target, name, value)` call. -/
inductive Event where
  | recordEvt (k : HistoryKey)
  | writeEvt (c : Nat) (n : String)
  deriving Repr, DecidableEq

/-- Result of running (part of) an injection: the raised exception if
any, the state at exit (mutations made before the raise are kept),
and the trace of record/write events that occurred. -/
structure PushOut where
  err? : Option PyError
  st : State
  trace : List Event
  deriving Repr, DecidableEq

namespace Main

/-- The property-coercion message of `_push_attr`'s `TypeError`
branch in `main.py`. -/
def convertMsg (attr_name : String) (v : PyVal) : String :=
  "Can\x27t convert \x27" ++ attr_name ++ "\x27 from type \x27" ++ v.typeName ++ "\x27, to property"

/-- The arity message of `_push_attr`'s `ValueError` branch. -/
def arityMsg (attr_name : String) (num_params : Nat) : String :=
  "Function \x27" ++ attr_name ++
    "\x27 must require exactly 1 positional argument for it to be converted to a property. It\x27s defined to take " ++
    toString num_params ++ "."

/-- The classification / property-coercion step at the top of
`_push_attr` (main.py lines 277-287): when `as_property` and the
value is not already a property, it must be a function of exactly one
formal parameter and gets wrapped by `property(...)`. -/
def classifyCoerce (as_property : Bool) (attr_name : String) (v : PyVal) :
    Except PyError PyVal :=
  if as_property = true ∧ v.isProp = false then
    match v with
    | .func fn k =>
        if k ≠ 1 then .error (.valueError (arityMsg attr_name k))
        else .ok (.prop fn k)
    | _ => .error (.typeError (convertMsg attr_name v))
  else .ok v

/-- `_validate_non_existing_attribute(target_cls, attr_name)`:
raise `ExistingAttributeError` when `hasattr(target_cls, attr_name)`
and the history key is not in `_history`. -/
def _validate_non_existing_attribute (env : Env) (st : State) (c : Nat)
    (n : String) : Except PyError Unit :=
  if hasattrB env st c n = true ∧ _make_history_key env c n ∉ st.history then
    .error (.existingAttribute (existingAttrMsg (_make_history_key env c n)))
  else .ok ()

/-- The conflict-guard step of `_push_attr` (main.py lines 289-290):
the validation runs only when `overwrite` is false. -/
def conflictGuard (env : Env) (st : State) (c : Nat) (n : String)
    (overwrite : Bool) : Except PyError Unit :=
  if overwrite = false then _validate_non_existing_attribute env st c n
  else .ok ()

/-- `_push_attr(target_cls, attr_name, attr_obj, overwrite, as_property)`
(main.py lines 258-293): coerce, guard, then `_history.add(key)`
followed by `setattr(target_cls, attr_name, value)`.  The trace
records the history insertion and the attribute write in the order
the code performs them. -/
def _push_attr (env : Env) (st : State) (c : Nat) (n : String) (v : PyVal)
    (overwrite as_property : Bool) : PushOut :=
  match classifyCoerce as_property n v with
  | .error e => ⟨some e, st, []⟩
  | .ok v2 =>
    match conflictGuard env st c n overwrite with
    | .error e => ⟨some e, st, []⟩
    | .ok _ =>
      let k := _make_history_key env c n
      let st1 : State := ⟨addKey k st.history, st.attrs⟩
      let st2 : State := ⟨st1.history, ((c, n), v2) :: st1.attrs⟩
      ⟨none, st2, [.recordEvt k, .writeEvt c n]⟩

/-- The inner loop `for target_cls in targets: _push_attr(...)`,
threading the state and stopping at the first raised exception. -/
def pushMany (env : Env) (ts : List Nat) (n : String) (v : PyVal)
    (overwrite as_property : Bool) (st : State) : PushOut :=
  match ts with
  | [] => ⟨none, st, []⟩
  | t :: rest =>
    let r := _push_attr env st t n v overwrite as_property
    match r.err? with
    | some e => ⟨some e, r.st, r.trace⟩
    | none =>
      let r2 := pushMany env rest n v overwrite as_property r.st
      ⟨r2.err?, r2.st, r.trace ++ r2.trace⟩

/-- The bookkeeping names `_push_cls_attrs` skips. -/
def exclude_attrs : List String :=
  ["__weakref__", "__dict__", "__module__", "__doc__", "__qualname__"]

/-- `_push_cls_attrs(cls_dict, to, overwrite, as_property)` (main.py
lines 227-255): iterate the class dict in order, skip bookkeeping
names, and for each remaining attribute resolve the target spec
(inside the loop, as the code does) and push to every target. -/
def _push_cls_attrs (env : Env) (dict : List (String × PyVal)) (toSpec : PyObj)
    (overwrite as_property : Bool) (st : State) : PushOut :=
  match dict with
  | [] => ⟨none, st, []⟩
  | (n, v) :: rest =>
    if n ∈ exclude_attrs then _push_cls_attrs env rest toSpec overwrite as_property st
    else
      match _fmt_validate_target_args toSpec with
      | .error e => ⟨some e, st, []⟩
      | .ok ts =>
        let r := pushMany env ts n v overwrite as_property st
        match r.err? with
        | some e => ⟨some e, r.st, r.trace⟩
        | none =>
          let r2 := _push_cls_attrs env rest toSpec overwrite as_property r.st
          ⟨r2.err?, r2.st, r.trace ++ r2.trace⟩

/-- An element the returned decorator can be applied to: a class
(carrying its `__dict__` as an ordered association list) or a single
value. -/
inductive Element where
  | clsEl (dict : List (String × PyVal))
  | valEl (v : PyVal)
  deriving Repr, DecidableEq

/-- The `elif` test of `Extend.__new__`'s `inner`:
`inspect.isfunction(e) or isinstance(e, (property, classmethod, staticmethod))`. -/
def decoratableVal : PyVal → Bool
  | .func _ _ => true
  | .prop _ _ => true
  | .clsMethod _ => true
  | .statMethod _ => true
  | _ => false

/-- Whether `inner` has a handling branch for the element. -/
def Element.supported : Element → Bool
  | .clsEl _ => true
  | .valEl v => decoratableVal v

/-- The attribute name `inner` computes: the property's getter
`__name__` for a property, the element's own `__name__` otherwise. -/
def attrNameOf : PyVal → String
  | .func n _ => n
  | .prop g _ => g
  | .clsMethod n => n
  | .statMethod n => n
  | .intVal _ => ""
  | .otherVal _ => ""

/-- Result of applying the decorator returned by `Extend(...)`: the
exception if any, the state at exit, the decorator's return value
(on normal return), and the event trace. -/
structure ExtOut where
  err? : Option PyError
  st : State
  ret : Option Element
  trace : List Event
  deriving Repr, DecidableEq

/-- The argument check at the top of `Extend.__new__` (main.py
lines 192-193): raise unless at least one target argument was given. -/
def ExtendNew (args : List PyObj) : Except PyError Unit :=
  if args.length = 0 then .error (.valueError "Must pass target class(es) as arguments")
  else .ok ()

/-- The `inner` closure returned by `Extend.__new__` (main.py lines
195-224), applied to a decorated element: classes go through
`_push_cls_attrs`, functions / properties / classmethods /
staticmethods are pushed one by one to each resolved target, anything
else raises; on success the element is returned iff `keep` is true. -/
def extendInner (env : Env) (args : List PyObj)
    (overwrite as_property keep : Bool) (e : Element) (st : State) : ExtOut :=
  match e with
  | .clsEl dict =>
    let r := _push_cls_attrs env dict (.tupleObj args) overwrite as_property st
    match r.err? with
    | some er => ⟨some er, r.st, none, r.trace⟩
    | none => ⟨none, r.st, if keep then some e else none, r.trace⟩
  | .valEl v =>
    if decoratableVal v then
      match _fmt_validate_target_args (.tupleObj args) with
      | .error er => ⟨some er, st, none, []⟩
      | .ok ts =>
        let r := pushMany env ts (attrNameOf v) v overwrite as_property st
        match r.err? with
        | some er => ⟨some er, r.st, none, r.trace⟩
        | none => ⟨none, r.st, if keep then some e else none, r.trace⟩
    else ⟨some (.valueError "Don\x27t know how to handle this"), st, none, []⟩

/-- Result of a class creation handled by a metaclass `__new__`:
exception if any, state at exit, the created class (its name and
dict) when one is produced (`None` otherwise), and the event trace. -/
structure MetaOut where
  err? : Option PyError
  st : State
  created : Option (String × List (String × PyVal))
  trace : List Event
  deriving Repr, DecidableEq

/-- `_ExtendMeta.__new__` (main.py lines 72-103): with no bases,
ordinary creation; otherwise the first base must be an `_ExtendMeta`
instance, the target spec comes from the `to` keyword (wrapped in a
1-tuple when not iterable) or from the remaining bases, the class
dict is pushed, and the class object is produced only when `keep`. -/
def extendMetaNew (env : Env) (cls_name : String) (bases : List Nat)
    (cls_dict : List (String × PyVal)) (to? : Option PyObj)
    (keep overwrite as_property : Bool) (st : State) : MetaOut :=
  match bases with
  | [] => ⟨none, st, some (cls_name, cls_dict), []⟩
  | b0 :: rest =>
    if (env b0).metaIsExtendMeta = false then
      ⟨some (.valueError "First parent argument must be an instance of \x27_ExtendMeta\x27"),
       st, none, []⟩
    else
      let toRes : Except PyError PyObj :=
        match to? with
        | none =>
          if rest.length > 0 then .ok (.tupleObj (rest.map .typeObj))
          else .error (.valueError "missing param, \x27to\x27")
        | some t => .ok (if isIterablePy t then t else .tupleObj [t])
      match toRes with
      | .error e => ⟨some e, st, none, []⟩
      | .ok toSpec =>
        let r := _push_cls_attrs env cls_dict toSpec overwrite as_property st
        match r.err? with
        | some e => ⟨some e, r.st, none, r.trace⟩
        | none =>
          if keep = false then ⟨none, r.st, none, r.trace⟩
          else ⟨none, r.st, some (cls_name, cls_dict), r.trace⟩

end Main

namespace Legacy

/-- The property-coercion `TypeError` message of
`_inject_attr_and_cache` in the legacy `extend_inplace.py` (its
wording differs slightly from `main.py`). -/
def convertMsgL (attr_name : String) (v : PyVal) : String :=
  "Can\x27t convert \x27" ++ attr_name ++ "\x27, of type \x27" ++ v.typeName ++ "\x27, to a property"

/-- `_inject_attr_and_cache(target_cls, attr_name, attr_obj,
overwrite, as_property)` (extend_inplace.py lines 284-341): same
structure as `main.py`'s `_push_attr` — coerce, validate unless
`overwrite`, `_history.add(key)`, `setattr`. -/
def _inject_attr_and_cache (env : Env) (st : State) (c : Nat) (n : String)
    (v : PyVal) (overwrite as_property : Bool) : PushOut :=
  match
    (if as_property = true ∧ v.isProp = false then
      match v with
      | .func fn k =>
          if k ≠ 1 then .error (.valueError (Main.arityMsg n k))
          else .ok (.prop fn k)
      | _ => .error (.typeError (convertMsgL n v))
    else .ok v : Except PyError PyVal) with
  | .error e => ⟨some e, st, []⟩
  | .ok v2 =>
    match
      (if overwrite = false then Main._validate_non_existing_attribute env st c n
       else .ok () : Except PyError Unit) with
    | .error e => ⟨some e, st, []⟩
    | .ok _ =>
      let k := _make_history_key env c n
      ⟨none, ⟨addKey k st.history, ((c, n), v2) :: st.attrs⟩,
       [.recordEvt k, .writeEvt c n]⟩

/-- The inner loop over target classes of `_inject_class_contents`. -/
def injectMany (env : Env) (ts : List Nat) (n : String) (v : PyVal)
    (overwrite as_property : Bool) (st : State) : PushOut :=
  match ts with
  | [] => ⟨none, st, []⟩
  | t :: rest =>
    let r := _inject_attr_and_cache env st t n v overwrite as_property
    match r.err? with
    | some e => ⟨some e, r.st, r.trace⟩
    | none =>
      let r2 := injectMany env rest n v overwrite as_property r.st
      ⟨r2.err?, r2.st, r.trace ++ r2.trace⟩

/-- The attribute loop of `_inject_class_contents`, over the already
filtered dict and the already resolved targets. -/
def injectLoop (env : Env) (dict : List (String × PyVal)) (ts : List Nat)
    (overwrite as_property : Bool) (st : State) : PushOut :=
  match dict with
  | [] => ⟨none, st, []⟩
  | (n, v) :: rest =>
    let r := injectMany env ts n v overwrite as_property st
    match r.err? with
    | some e => ⟨some e, r.st, r.trace⟩
    | none =>
      let r2 := injectLoop env rest ts overwrite as_property r.st
      ⟨r2.err?, r2.st, r.trace ++ r2.trace⟩

/-- `_inject_class_contents(cls_dict, to, overwrite, as_property)`
(extend_inplace.py lines 19-66): unlike `main.py`, the target spec is
resolved once, up front; then the dict is filtered of bookkeeping
names and each remaining attribute is injected into each target. -/
def _inject_class_contents (env : Env) (dict : List (String × PyVal))
    (toSpec : PyObj) (overwrite as_property : Bool) (st : State) : PushOut :=
  match _fmt_validate_target_args toSpec with
  | .error e => ⟨some e, st, []⟩
  | .ok ts =>
    injectLoop env (dict.filter (fun p => p.1 ∉ Main.exclude_attrs))
      ts overwrite as_property st

/-- `InjectMeta.__new__` (extend_inplace.py lines 84-118): with no
bases, ordinary creation.  With bases whose first element is an
`InjectMeta` instance, resolve `to` (from the keyword or the
remaining bases), inject the class dict, and produce the class object
only when `keep_cls`.  With a first base that is NOT an `InjectMeta`
instance, there is no `else` branch: the interception block is
skipped entirely and `super().__new__` creates the class normally. -/
def injectMetaNew (env : Env) (cls_name : String) (bases : List Nat)
    (cls_dict : List (String × PyVal)) (to? : Option PyObj)
    (keep_cls overwrite as_property : Bool) (st : State) : Main.MetaOut :=
  match bases with
  | [] => ⟨none, st, some (cls_name, cls_dict), []⟩
  | b0 :: rest =>
    if (env b0).metaIsInjectMeta = false then
      ⟨none, st, some (cls_name, cls_dict), []⟩
    else
      let toRes : Except PyError PyObj :=
        match to? with
        | none =>
          if rest.length > 0 then .ok (.tupleObj (rest.map .typeObj))
          else .error (.valueError "missing param, \x27to\x27")
        | some t => .ok t
      match toRes with
      | .error e => ⟨some e, st, none, []⟩
      | .ok toSpec =>
        let r := _inject_class_contents env cls_dict toSpec overwrite as_property st
        match r.err? with
        | some e => ⟨some e, r.st, none, r.trace⟩
        | none =>
          if keep_cls = false then ⟨none, r.st, none, r.trace⟩
          else ⟨none, r.st, some (cls_name, cls_dict), r.trace⟩

end Legacy

/-- A small concrete class environment: id 0 is a plain class `m.A`,
id 1 is `m.B` whose lookup order also searches id 0 (i.e. `B`
inherits from `A`), neither is a metaclass-marker instance; id 9 is a
marker instance of both engines' metaclasses. -/
def envA : Env := fun i =>
  if i = 0 then ⟨some "m", some "A", [0], false, false⟩
  else if i = 1 then ⟨some "m", some "B", [1, 0], false, false⟩
  else if i = 9 then ⟨some "m", some "Extend", [9], true, true⟩
  else ⟨none, none, [i], false, false⟩

/-- The empty state: no history, no attributes anywhere. -/
def stEmpty : State := ⟨[], []⟩

/-- A state where class 0 (`m.A`) already owns an attribute `shape`
that the engine never wrote (empty history). -/
def stShape : State := ⟨[], [((0, "shape"), .intVal 7)]⟩

/-- The ordering property asserted of the Ledger: every record event
in an injection trace is preceded by an attribute-write event. -/
def recordOnlyAfterWrite (tr : List Event) : Prop :=
  ∀ i k, tr.get? i = some (.recordEvt k) →
    ∃ j, j < i ∧ ∃ c n, tr.get? j = some (.writeEvt c n)

lemma mem_addKey (k : HistoryKey) (h : List HistoryKey) : k ∈ addKey k h := by
  unfold addKey
  split
  · assumption
  · exact List.mem_cons_self k h

lemma validate_ok_of_mem (env : Env) (st : State) (c : Nat) (n : String)
    (hmem : _make_history_key env c n ∈ st.history) :
    Main._validate_non_existing_attribute env st c n = .ok () := by
  simp [Main._validate_non_existing_attribute, hmem]

lemma push_attr_success_state (env : Env) (st : State) (c : Nat) (n : String)
    (v : PyVal) (ow ap : Bool)
    (h : (Main._push_attr env st c n v ow ap).err? = none) :
    ∃ v2, (Main._push_attr env st c n v ow ap).st =
      ⟨addKey (_make_history_key env c n) st.history, ((c, n), v2) :: st.attrs⟩ := by
  cases hc : Main.classifyCoerce ap n v with
  | error e => simp [Main._push_attr, hc] at h
  | ok v2 =>
    cases hg : Main.conflictGuard env st c n ow with
    | error e => simp [Main._push_attr, hc, hg] at h
    | ok u => exact ⟨v2, by simp [Main._push_attr, hc, hg]⟩

/-- C1: with `overwrite = false`, the conflict guard raises
`ExistingAttributeError` exactly when the owner exposes the name
(`hasattr`) and the history key is absent from the ledger; in every
other case (overwrite true, key recorded, or name absent) it returns
silently, and it never raises any other error kind. -/
theorem claim_C1 (env : Env) (st : State) (c : Nat) (n : String) (ow : Bool) :
    ((∃ m, Main.conflictGuard env st c n ow = .error (.existingAttribute m)) ↔
      (ow = false ∧ hasattrB env st c n = true ∧ _make_history_key env c n ∉ st.history))
    ∧ (Main.conflictGuard env st c n ow = .ok () ∨
       ∃ m, Main.conflictGuard env st c n ow = .error (.existingAttribute m)) := by
  unfold Main.conflictGuard Main._validate_non_existing_attribute
  cases ow with
  | false =>
    by_cases hcond : hasattrB env st c n = true ∧ _make_history_key env c n ∉ st.history
    · simp [hcond]
    · simp [hcond]
  | true => simp

/-- C1 witness: a concrete conflicting state where the guard raises. -/
theorem claim_C1_witness :
    (false = false ∧ hasattrB envA stShape 0 "shape" = true ∧
      _make_history_key envA 0 "shape" ∉ stShape.history) ∧
    (∃ m, Main.conflictGuard envA stShape 0 "shape" false =
      .error (.existingAttribute m)) :=
  ⟨by decide, (claim_C1 envA stShape 0 "shape" false).1.mpr (by decide)⟩

/-- C2: once an injection of `(owner, name)` with `overwrite = false`
succeeds, an immediately following injection of the same pair with
`overwrite = false` also succeeds — with a different value (default
coercion), or with the same value and flags as the first call. -/
theorem claim_C2 (env : Env) (st : State) (c : Nat) (n : String)
    (v1 v2 : PyVal) (ap1 : Bool)
    (h : (Main._push_attr env st c n v1 false ap1).err? = none) :
    (Main._push_attr env ((Main._push_attr env st c n v1 false ap1).st)
        c n v2 false false).err? = none ∧
    (Main._push_attr env ((Main._push_attr env st c n v1 false ap1).st)
        c n v1 false ap1).err? = none := by
  obtain ⟨v2', hst⟩ := push_attr_success_state env st c n v1 false ap1 h
  have hmem : _make_history_key env c n ∈
      ((Main._push_attr env st c n v1 false ap1).st).history := by
    rw [hst]; exact mem_addKey _ _
  have hguard : Main.conflictGuard env ((Main._push_attr env st c n v1 false ap1).st)
      c n false = .ok () := by
    simp [Main.conflictGuard, validate_ok_of_mem _ _ _ _ hmem]
  constructor
  · generalize hq : (Main._push_attr env st c n v1 false ap1).st = st2
    rw [hq] at hguard
    simp [Main._push_attr, Main.classifyCoerce, hguard]
  · cases hc : Main.classifyCoerce ap1 n v1 with
    | error e => simp [Main._push_attr, hc] at h
    | ok w =>
      generalize hq : (Main._push_attr env st c n v1 false ap1).st = st2
      rw [hq] at hguard
      simp [Main._push_attr, hc, hguard]

/-- C2 witness: a concrete successful re-declaration. -/
theorem claim_C2_witness :
    (Main._push_attr envA stEmpty 0 "bar" (.func "bar" 1) false false).err? = none ∧
    (Main._push_attr envA ((Main._push_attr envA stEmpty 0 "bar" (.func "bar" 1) false false).st)
        0 "bar" (.intVal 3) false false).err? = none :=
  ⟨by decide,
   (claim_C2 envA stEmpty 0 "bar" (.func "bar" 1) (.intVal 3) false (by decide)).1⟩

/-- C3: a failed injection (classifier/coercer error or conflict
error) leaves the ledger and all attribute tables exactly as they
were, and performs neither a record nor a write. -/
theorem claim_C3 (env : Env) (st : State) (c : Nat) (n : String) (v : PyVal)
    (ow ap : Bool) (e : PyError)
    (h : (Main._push_attr env st c n v ow ap).err? = some e) :
    (Main._push_attr env st c n v ow ap).st = st ∧
    (Main._push_attr env st c n v ow ap).trace = [] := by
  cases hc : Main.classifyCoerce ap n v with
  | error e2 => simp [Main._push_attr, hc]
  | ok v2 =>
    cases hg : Main.conflictGuard env st c n ow with
    | error e2 => simp [Main._push_attr, hc, hg]
    | ok u => simp [Main._push_attr, hc, hg] at h

/-- C3 witness: a concrete conflicting injection that raises and
leaves the state untouched. -/
theorem claim_C3_witness :
    (Main._push_attr envA stShape 0 "shape" (.intVal 1) false false).err? =
      some (.existingAttribute (existingAttrMsg (some "m", some "A", "shape"))) ∧
    (Main._push_attr envA stShape 0 "shape" (.intVal 1) false false).st = stShape ∧
    (Main._push_attr envA stShape 0 "shape" (.intVal 1) false false).trace = [] :=
  ⟨by decide,
   claim_C3 envA stShape 0 "shape" (.intVal 1) false false
     (.existingAttribute (existingAttrMsg (some "m", some "A", "shape"))) (by decide)⟩

/-- C4 counterexample: a successful injection's event trace is
`[record, write]` — the ledger insertion happens first, so it is NOT
the case that every record event is preceded by the corresponding
attribute write. -/
theorem claim_C4_counterexample :
    (Main._push_attr envA stEmpty 0 "bar" (.func "bar" 1) false false).trace =
      [.recordEvt (some "m", some "A", "bar"), .writeEvt 0 "bar"] ∧
    ¬ recordOnlyAfterWrite
      ((Main._push_attr envA stEmpty 0 "bar" (.func "bar" 1) false false).trace) := by
  constructor
  · decide
  · intro h
    obtain ⟨j, hj, -⟩ := h 0 (some "m", some "A", "bar") (by decide)
    exact absurd hj (Nat.not_lt_zero j)

/-- C4 amended: the ledger record is emitted exactly when the
classification and conflict checks have passed, and the attribute
write follows it immediately within the same injection; a failed
injection emits neither event. -/
theorem claim_C4 (env : Env) (st : State) (c : Nat) (n : String) (v : PyVal)
    (ow ap : Bool) :
    ((Main._push_attr env st c n v ow ap).err? = none →
      (Main._push_attr env st c n v ow ap).trace =
        [.recordEvt (_make_history_key env c n), .writeEvt c n]) ∧
    ((Main._push_attr env st c n v ow ap).err? ≠ none →
      (Main._push_attr env st c n v ow ap).trace = []) := by
  cases hc : Main.classifyCoerce ap n v with
  | error e => simp [Main._push_attr, hc]
  | ok v2 =>
    cases hg : Main.conflictGuard env st c n ow with
    | error e => simp [Main._push_attr, hc, hg]
    | ok u => simp [Main._push_attr, hc, hg]

/-- C4 witness: the amended ordering at a concrete successful
injection. -/
theorem claim_C4_witness :
    (Main._push_attr envA stEmpty 1 "baz" (.func "baz" 1) false false).trace =
      [.recordEvt (some "m", some "B", "baz"), .writeEvt 1 "baz"] :=
  (claim_C4 envA stEmpty 1 "baz" (.func "baz" 1) false false).1 (by decide)

/-- C5 counterexample: class 1 (`m.B`) does not own `shape` — it only
inherits it from class 0 (`m.A`) — yet with an empty ledger the
injection of `(B, shape)` with `overwrite = false` raises the
conflict error, so a merely inherited name IS rejectable-on-conflict,
contradicting the claimed invariant. -/
theorem claim_C5_counterexample :
    hasOwn stShape 1 "shape" = false ∧
    (Main._push_attr envA stShape 1 "shape" (.func "shape" 1) false false).err? =
      some (.existingAttribute (existingAttrMsg (some "m", some "B", "shape"))) := by
  decide

/-- C5 amended: a `(owner, name)` pair is rejectable-on-conflict
(injection with `overwrite = false` raises the conflict error) iff
the name is exposed on the owner per `hasattr` — i.e. present on the
owner's own table or anywhere in its attribute-lookup order,
inherited names included — and its history key is absent from the
ledger. -/
theorem claim_C5 (env : Env) (st : State) (c : Nat) (n : String) (v : PyVal) :
    ((∃ m, (Main._push_attr env st c n v false false).err? =
        some (.existingAttribute m)) ↔
      (hasattrB env st c n = true ∧ _make_history_key env c n ∉ st.history)) := by
  have hc : Main.classifyCoerce false n v = .ok v := by
    simp [Main.classifyCoerce]
  by_cases hcond : hasattrB env st c n = true ∧ _make_history_key env c n ∉ st.history
  · have hg : Main.conflictGuard env st c n false =
        .error (.existingAttribute (existingAttrMsg (_make_history_key env c n))) := by
      simp [Main.conflictGuard, Main._validate_non_existing_attribute, hcond]
    simp [Main._push_attr, hc, hg, hcond]
  · have hg : Main.conflictGuard env st c n false = .ok () := by
      simp [Main.conflictGuard, Main._validate_non_existing_attribute, hcond]
    simp [Main._push_attr, hc, hg, hcond]

/-- C6: target resolution flattens nested specs preserving order
(`[A, (B,), [C]]` resolving to `(A, B, C)` in that order, and a
general concatenation law), treats strings and bytes as atomic
leaves, raises `TypeError` on a bare non-type such as `5`, and raises
`TypeError` whenever any flattened leaf is not a type. -/
theorem claim_C6 :
    (∀ a b c : Nat,
      _fmt_validate_target_args
        (.listObj [.typeObj a, .tupleObj [.typeObj b], .listObj [.typeObj c]]) =
        .ok [a, b, c])
    ∧ (_fmt_validate_target_args (.intObj 5) =
        .error (.typeError "Targets must be of type, \x27type\x27"))
    ∧ (∀ s, _flatten_iterable (.strObj s) = [.strObj s])
    ∧ (∀ bs, _flatten_iterable (.bytesObj bs) = [.bytesObj bs])
    ∧ (∀ xs ys, flatten (xs ++ ys) = flatten xs ++ flatten ys)
    ∧ (∀ args x, x ∈ _flatten_iterable args → isType x = false →
        _fmt_validate_target_args args =
          .error (.typeError "Targets must be of type, \x27type\x27")) := by
  refine ⟨fun a b c => by
      simp [_fmt_validate_target_args, _flatten_iterable, flatten, valid_iterable,
        pyChildren, isType, typeIdOf],
    by simp [_fmt_validate_target_args, _flatten_iterable, flatten, valid_iterable,
        pyChildren, isType],
    fun s => by simp [_flatten_iterable, flatten, valid_iterable, pyChildren],
    fun bs => by simp [_flatten_iterable, flatten, valid_iterable, pyChildren],
    ?_, ?_⟩
  · intro xs ys
    induction xs with
    | nil => simp [flatten]
    | cons e rest ih =>
      cases e <;> simp [flatten, ih]
  · intro args x hx hxT
    have hall : (_flatten_iterable args).all isType = false := by
      cases hall : (_flatten_iterable args).all isType with
      | false => rfl
      | true => exact absurd (List.all_eq_true.mp hall x hx) (by simp [hxT])
    simp [_fmt_validate_target_args, hall]

/-- C6 witness: the concrete flattening, and a TypeError from a
non-type leaf buried inside a nested spec. -/
theorem claim_C6_witness :
    _fmt_validate_target_args
      (.listObj [.typeObj 1, .tupleObj [.typeObj 2], .listObj [.typeObj 3]]) =
      .ok [1, 2, 3] ∧
    _fmt_validate_target_args (.listObj [.typeObj 1, .listObj [.strObj "hi"]]) =
      .error (.typeError "Targets must be of type, \x27type\x27") :=
  ⟨claim_C6.1 1 2 3,
   claim_C6.2.2.2.2.2 (.listObj [.typeObj 1, .listObj [.strObj "hi"]])
     (.strObj "hi") (by simp [_flatten_iterable, flatten, valid_iterable, pyChildren])
     rfl⟩

/-- C7: the classifier/coercer is the claimed four-way split — pass
through when `as_property` is off or the value is already a property;
wrap a one-parameter function as a property; `ValueError` naming the
function and the actual count on any other arity; `TypeError` naming
the runtime type on a non-function non-property — and any classifier
error leaves the state untouched with no record/write event. -/
theorem claim_C7 (name : String) :
    (∀ v, Main.classifyCoerce false name v = .ok v)
    ∧ (∀ g k, Main.classifyCoerce true name (.prop g k) = .ok (.prop g k))
    ∧ (∀ fn, Main.classifyCoerce true name (.func fn 1) = .ok (.prop fn 1))
    ∧ (∀ fn k, k ≠ 1 →
        Main.classifyCoerce true name (.func fn k) =
          .error (.valueError (Main.arityMsg name k)) ∧
        (∃ pre post, Main.arityMsg name k = pre ++ name ++ post) ∧
        (∃ pre post, Main.arityMsg name k = pre ++ toString k ++ post))
    ∧ (∀ v, v.isFunc = false → v.isProp = false →
        Main.classifyCoerce true name v =
          .error (.typeError (Main.convertMsg name v)) ∧
        (∃ pre post, Main.convertMsg name v = pre ++ v.typeName ++ post))
    ∧ (∀ env st c n v ow ap e, Main.classifyCoerce ap n v = .error e →
        Main._push_attr env st c n v ow ap = ⟨some e, st, []⟩) := by
  refine ⟨fun v => by simp [Main.classifyCoerce], fun g k => by simp [Main.classifyCoerce, PyVal.isProp],
    fun fn => by simp [Main.classifyCoerce, PyVal.isProp], ?_, ?_, ?_⟩
  · intro fn k hk
    refine ⟨by simp [Main.classifyCoerce, PyVal.isProp, hk], ⟨"Function \x27", ?_, ?_⟩, ?_⟩
    · exact "\x27 must require exactly 1 positional argument for it to be converted to a property. It\x27s defined to take " ++ toString k ++ "."
    · simp [Main.arityMsg, String.append_assoc]
    · exact ⟨"Function \x27" ++ name ++ "\x27 must require exactly 1 positional argument for it to be converted to a property. It\x27s defined to take ",
        ".", by simp [Main.arityMsg, String.append_assoc]⟩
  · intro v hf hp
    constructor
    · cases v <;> simp_all [Main.classifyCoerce, PyVal.isProp, PyVal.isFunc]
    · exact ⟨"Can\x27t convert \x27" ++ name ++ "\x27 from type \x27", "\x27, to property",
        by simp [Main.convertMsg, String.append_assoc]⟩
  · intro env st c n v ow ap e he
    simp [Main._push_attr, he]

/-- C7 witness: concrete coercions — a two-parameter function raises
the arity `ValueError`, and an int raises the `TypeError`. -/
theorem claim_C7_witness :
    Main.classifyCoerce true "foo" (.func "foo" 2) =
      .error (.valueError (Main.arityMsg "foo" 2)) ∧
    Main.classifyCoerce true "foo" (.intVal 3) =
      .error (.typeError (Main.convertMsg "foo" (.intVal 3))) ∧
    Main._push_attr envA stEmpty 0 "foo" (.func "foo" 2) false true =
      ⟨some (.valueError (Main.arityMsg "foo" 2)), stEmpty, []⟩ :=
  ⟨((claim_C7 "foo").2.2.2.1 "foo" 2 (by decide)).1,
   ((claim_C7 "foo").2.2.2.2.1 (.intVal 3) rfl rfl).1,
   (claim_C7 "foo").2.2.2.2.2 envA stEmpty 0 "foo" (.func "foo" 2) false true
     (.valueError (Main.arityMsg "foo" 2))
     ((claim_C7 "foo").2.2.2.1 "foo" 2 (by decide)).1⟩

lemma push_cls_attrs_no_targets (env : Env) (dict : List (String × PyVal))
    (toSpec : PyObj) (ow ap : Bool) (st : State)
    (h : _fmt_validate_target_args toSpec = .ok []) :
    Main._push_cls_attrs env dict toSpec ow ap st = ⟨none, st, []⟩ := by
  induction dict with
  | nil => simp [Main._push_cls_attrs]
  | cons p rest ih =>
    obtain ⟨n, v⟩ := p
    by_cases hn : n ∈ Main.exclude_attrs
    · simp [Main._push_cls_attrs, hn, ih]
    · simp [Main._push_cls_attrs, hn, h, Main.pushMany, ih]

/-- C8: on success, the decorator front end returns the decorated
element unchanged when `keep` is true and returns nothing when `keep`
is false; and the inheritance-capture front end (with at least one
ancestor) produces no class object when `keep` is false and produces
the declared class, its own attribute dict intact, when `keep` is
true. -/
theorem claim_C8 :
    (∀ env args ow ap keep e st,
      (Main.extendInner env args ow ap keep e st).err? = none →
      (Main.extendInner env args ow ap keep e st).ret =
        if keep then some e else none)
    ∧ (∀ env cn b0 rest cd to? keep ow ap st,
      (Main.extendMetaNew env cn (b0 :: rest) cd to? keep ow ap st).err? = none →
      (Main.extendMetaNew env cn (b0 :: rest) cd to? keep ow ap st).created =
        if keep then some (cn, cd) else none) := by
  constructor
  · intro env args ow ap keep e st h
    cases e with
    | clsEl dict =>
      cases hr : (Main._push_cls_attrs env dict (.tupleObj args) ow ap st).err? with
      | some er => simp [Main.extendInner, hr] at h
      | none => simp [Main.extendInner, hr]
    | valEl v =>
      by_cases hd : Main.decoratableVal v = true
      · cases hf : _fmt_validate_target_args (.tupleObj args) with
        | error er => simp [Main.extendInner, hd, hf] at h
        | ok ts =>
          cases hr : (Main.pushMany env ts (Main.attrNameOf v) v ow ap st).err? with
          | some er => simp [Main.extendInner, hd, hf, hr] at h
          | none => simp [Main.extendInner, hd, hf, hr]
      · simp [Main.extendInner, hd] at h
  · intro env cn b0 rest cd to? keep ow ap st h
    by_cases hm : (env b0).metaIsExtendMeta = false
    · simp [Main.extendMetaNew, hm] at h
    · have hm' : (env b0).metaIsExtendMeta = true := by
        cases hmm : (env b0).metaIsExtendMeta
        · exact absurd hmm hm
        · rfl
      cases to? with
      | none =>
        by_cases hlen : rest.length > 0
        · cases hr : (Main._push_cls_attrs env cd
              (.tupleObj (rest.map .typeObj)) ow ap st).err? with
          | some e2 => simp [Main.extendMetaNew, hm', hlen, hr] at h
          | none => cases keep <;> simp [Main.extendMetaNew, hm', hlen, hr]
        · simp [Main.extendMetaNew, hm', hlen] at h
      | some t =>
        cases hr : (Main._push_cls_attrs env cd
            (if isIterablePy t then t else .tupleObj [t]) ow ap st).err? with
        | some e2 => simp [Main.extendMetaNew, hm', hr] at h
        | none => cases keep <;> simp [Main.extendMetaNew, hm', hr]

/-- C8 witness: with `keep = true` the decorator returns the decorated
function; without `keep`, a marker-first class declaration yields no
class object. -/
theorem claim_C8_witness :
    (Main.extendInner envA [.typeObj 0] false false true
        (.valEl (.func "w8" 1)) stEmpty).ret = some (.valEl (.func "w8" 1)) ∧
    (Main.extendMetaNew envA "P" [9, 0] [("w8m", .func "w8m" 1)]
        none false false false stEmpty).created = none := by
  have hfmt : _fmt_validate_target_args (.tupleObj [PyObj.typeObj 0]) = .ok [0] := by
    simp [_fmt_validate_target_args, _flatten_iterable, flatten, valid_iterable,
      pyChildren, isType, typeIdOf]
  have hpush : (Main._push_attr envA stEmpty 0 "w8" (.func "w8" 1) false false).err? =
      none := by decide
  have h1 : (Main.extendInner envA [.typeObj 0] false false true
      (.valEl (.func "w8" 1)) stEmpty).err? = none := by
    simp [Main.extendInner, Main.decoratableVal, Main.attrNameOf, hfmt, Main.pushMany, hpush]
  have hpush2 : (Main._push_attr envA stEmpty 0 "w8m" (.func "w8m" 1) false false).err? =
      none := by decide
  have h2 : (Main.extendMetaNew envA "P" [9, 0] [("w8m", .func "w8m" 1)]
      none false false false stEmpty).err? = none := by
    simp [Main.extendMetaNew, envA, Main._push_cls_attrs, Main.exclude_attrs, hfmt,
      Main.pushMany, hpush2]
  exact ⟨claim_C8.1 envA [.typeObj 0] false false true (.valEl (.func "w8" 1)) stEmpty h1,
    claim_C8.2 envA "P" 9 [0] [("w8m", .func "w8m" 1)] none false false false stEmpty h2⟩

/-- C9 counterexample: under the legacy engine's metaclass
(`InjectMeta`), creating a class whose first ancestor is NOT a marker
instance does not fail at all — the interception block is skipped and
the class is created normally, with no injection and no mutation. -/
theorem claim_C9_counterexample :
    (envA 0).metaIsInjectMeta = false ∧
    Legacy.injectMetaNew envA "C" [0] [("foo", .func "foo" 1)]
        none false false false stEmpty =
      ⟨none, stEmpty, some ("C", [("foo", .func "foo" 1)]), []⟩ := by
  decide

/-- C9 amended: with at least one ancestor whose first element is not
a marker instance, `main.py`'s `_ExtendMeta` fails with the structural
`ValueError` before any mutation, while the legacy `InjectMeta`
instead proceeds with ordinary class creation, also before any
injection or mutation. -/
theorem claim_C9 :
    (∀ env cn b0 rest cd to? keep ow ap st, (env b0).metaIsExtendMeta = false →
      Main.extendMetaNew env cn (b0 :: rest) cd to? keep ow ap st =
        ⟨some (.valueError "First parent argument must be an instance of \x27_ExtendMeta\x27"),
         st, none, []⟩)
    ∧ (∀ env cn b0 rest cd to? kc ow ap st, (env b0).metaIsInjectMeta = false →
      Legacy.injectMetaNew env cn (b0 :: rest) cd to? kc ow ap st =
        ⟨none, st, some (cn, cd), []⟩) := by
  constructor
  · intro env cn b0 rest cd to? keep ow ap st hm
    simp [Main.extendMetaNew, hm]
  · intro env cn b0 rest cd to? kc ow ap st hm
    simp [Legacy.injectMetaNew, hm]

/-- C9 witness: the amended behavior at concrete inputs — the main
engine raises the structural error, the legacy engine creates the
class normally. -/
theorem claim_C9_witness :
    Main.extendMetaNew envA "C" [0] [] none false false false stEmpty =
      ⟨some (.valueError "First parent argument must be an instance of \x27_ExtendMeta\x27"),
       stEmpty, none, []⟩ ∧
    Legacy.injectMetaNew envA "D" [1] [] none false false false stEmpty =
      ⟨none, stEmpty, some ("D", []), []⟩ :=
  ⟨claim_C9.1 envA "C" 0 [] [] none false false false stEmpty (by decide),
   claim_C9.2 envA "D" 1 [] [] none false false false stEmpty (by decide)⟩

/-- C10: `Extend([])` / `Extend(())` pass the no-targets check (one
argument was given), and the returned decorator, applied to any
supported element with `keep = false`, is a silent no-op: no error,
no state change (no ledger growth, no attribute write), no event, and
it returns nothing. -/
theorem claim_C10 :
    (Main.ExtendNew [.listObj []] = .ok ())
    ∧ (Main.ExtendNew [.tupleObj []] = .ok ())
    ∧ (∀ env ow ap e st arg, Main.Element.supported e = true →
        _fmt_validate_target_args (.tupleObj [arg]) = .ok [] →
        Main.extendInner env [arg] ow ap false e st = ⟨none, st, none, []⟩) := by
  refine ⟨rfl, rfl, ?_⟩
  intro env ow ap e st arg hsupp hfmt
  cases e with
  | clsEl dict =>
    have hno := push_cls_attrs_no_targets env dict (.tupleObj [arg]) ow ap st hfmt
    simp [Main.extendInner, hno]
  | valEl v =>
    have hd : Main.decoratableVal v = true := by
      simpa [Main.Element.supported] using hsupp
    simp [Main.extendInner, hd, hfmt, Main.pushMany]

/-- C10 witness: decorating a one-parameter function with
`Extend([])` at `keep = false` returns nothing and changes nothing. -/
theorem claim_C10_witness :
    Main.Element.supported (.valEl (.func "f" 1)) = true ∧
    _fmt_validate_target_args (.tupleObj [.listObj []]) = .ok [] ∧
    Main.extendInner envA [.listObj []] false false false
        (.valEl (.func "f" 1)) stEmpty = ⟨none, stEmpty, none, []⟩ := by
  have h1 : Main.Element.supported (.valEl (.func "f" 1)) = true := rfl
  have h2 : _fmt_validate_target_args (.tupleObj [PyObj.listObj []]) = .ok [] := by
    simp [_fmt_validate_target_args, _flatten_iterable, flatten, valid_iterable, pyChildren]
  exact ⟨h1, h2,
    claim_C10.2.2 envA false false (.valEl (.func "f" 1)) stEmpty (.listObj []) h1 h2⟩
